import Mathlib

/-!
Verification of the vox-nexus session engine against its specification.

The definitions below are a shallow embedding of the JavaScript source:
- `client/src/App.jsx` (SessionPage: handleToggleConnect, handleToggleMic,
  the language-sync effect),
- `client/src/hooks/useLiveKit.js` (connect, disconnect, toggleMicrophone,
  setLanguage, the DataReceived handler, handleReconnect),
- the direct-stream hook (useDirectStream: connect, disconnect,
  startRecording, stopRecording, toggleRecording, setLanguage, ws.onmessage,
  onaudioprocess),
- `client/src/components/SystemCheckModal.jsx` (runChecks, allPassed),
- the backend express server (GET /health handler).

Asynchronous callback-driven code is modelled as explicit state-passing:
each handler becomes a function from the pre-state (plus the event payload)
to the post-state.  JSON.parse outcomes are modelled as `Option Json`
(`none` = the raw text failed to parse).  32-bit float audio samples are
modelled as rationals; JavaScript's Int16Array store (ToInt16) is
truncation toward zero, which is exact here because the stored value is
already clamped into the 16-bit range.
-/

namespace VoxNexus

/-- JSON values, as produced by `JSON.parse` on the wire payloads this
program exchanges.  Numbers in the claims are integral, so `num` carries
an `Int`. -/
inductive Json where
  | null : Json
  | str : String → Json
  | num : Int → Json
  | bool : Bool → Json
  | arr : List Json → Json
  | obj : List (String × Json) → Json
deriving Repr

/-- JavaScript property access `data.k` on a parsed value: the first
binding of the key in an object, `undefined` (here `none`) otherwise. -/
def Json.getField : Json → String → Option Json
  | .obj fields, k => fields.lookup k
  | _, _ => none

/-- The connection states named by the specification's ConnectionState
enum.  The embedded code only ever assigns `connected`, `reconnecting`
and `disconnected`; `failed`, `idle` and `connecting` are carried so that
claims mentioning them can be stated. -/
inductive ConnState where
  | idle | connecting | connected | reconnecting | disconnected | failed
deriving DecidableEq, Repr

/-- WebSocket readyState values. -/
inductive WsReadyState where
  | connecting | open | closing | closed
deriving DecidableEq, Repr

/-- The two session modes: `agent` is the CloudRelay (LiveKit) variant,
`direct` the DirectSocket (local WebSocket) variant, matching the
`mode` state in App.jsx. -/
inductive Mode where
  | agent | direct
deriving DecidableEq, Repr

/-- One entry of the DirectSocket transcript log, as appended by
`ws.onmessage` in useDirectStream: fields read off the parsed message
(`none` models a missing field, i.e. JavaScript `undefined`). -/
structure TranscriptEntry where
  text : Option Json
  timestamp : Nat
  isFinal : Option Json
  latency : Option Json
  participant : String
deriving Repr

/-- State of the direct-stream hook: `isConnected` / `isRecording` React
state, the transcript list, and `wsRef` modelled as the readyState of the
current socket (`none` = no socket object held). -/
structure DirectState where
  isConnected : Bool
  isRecording : Bool
  transcripts : List TranscriptEntry
  ws : Option WsReadyState
deriving Repr

/-- Embeds `ws.onmessage` from useDirectStream: parse the event data; on parse
failure (`none`) log and drop, leaving the state unchanged; on a message
whose `type` field is the string "transcription", append one entry built
from the message's `text`, `isFinal` and `latency_ms` fields together
with the arrival time; any other message leaves the state unchanged. -/
def wsOnMessage (st : DirectState) (payload : Option Json) (now : Nat) :
    DirectState :=
  match payload with
  | none => st
  | some data =>
    match data.getField "type" with
    | some (.str t) =>
      if t = "transcription" then
        { st with transcripts := st.transcripts ++
            [{ text := data.getField "text"
             , timestamp := now
             , isFinal := data.getField "isFinal"
             , latency := data.getField "latency_ms"
             , participant := "direct-agent" }] }
      else st
    | _ => st

/-- Outcome of the direct-stream `connect()` promise: resolved at once
because the socket was already open (no new WebSocket constructed),
resolved by the open event of a newly constructed socket, or rejected by
its error event. -/
inductive DirectConnectResult where
  | alreadyOpen | opened | failed
deriving DecidableEq, Repr

/-- External outcomes consumed by the controller during a start request:
whether the token fetch returns a token, whether the LiveKit room connect
(and track publish) resolves, whether a remote agent participant is
present after joining, whether the direct WebSocket reaches its open
event, and whether getUserMedia grants the microphone. -/
structure AppEnv where
  tokenOk : Bool
  agentConnectOk : Bool
  agentPresent : Bool
  directConnectOk : Bool
  micOk : Bool
deriving DecidableEq, Repr

/-- Embeds `connect()` from useDirectStream: if the held socket's readyState is
OPEN, resolve immediately without constructing a second socket and leave
all state untouched; otherwise construct a new socket whose open event
sets `isConnected` and resolves, and whose error event clears
`isConnected` and rejects (the close event that accompanies a failure
also runs the stopRecording safety stop). -/
def directConnect (env : AppEnv) (st : DirectState) :
    DirectState × DirectConnectResult :=
  match st.ws with
  | some .open => (st, .alreadyOpen)
  | _ =>
    if env.directConnectOk then
      ({ st with ws := some .open, isConnected := true }, .opened)
    else
      ({ st with ws := some .closed, isConnected := false,
                 isRecording := false }, .failed)

/-- Embeds `stopRecording` from useDirectStream: clears the recording flag and
stops every hardware track. -/
def stopRecording (st : DirectState) : DirectState :=
  { st with isRecording := false }

/-- Embeds `startRecording` from useDirectStream: refuses when the socket is not
open; otherwise acquires the microphone (which can fail) and on success
sets the recording flag. -/
def startRecording (env : AppEnv) (st : DirectState) : DirectState :=
  if st.ws = some WsReadyState.open then
    if env.micOk then { st with isRecording := true } else st
  else st

/-- Embeds `toggleRecording` from useDirectStream. -/
def toggleRecording (env : AppEnv) (st : DirectState) : DirectState :=
  if st.isRecording then stopRecording st else startRecording env st

/-- Embeds `disconnect()` from useDirectStream: stop recording, close and drop
the socket, clear the connected flag. -/
def directDisconnect (st : DirectState) : DirectState :=
  { st with isRecording := false, ws := none, isConnected := false }

/-- State of the useLiveKit hook: `isConnected`, `connectionState`,
`micEnabled` and `agentConnected` React state, plus `room` recording
whether the `room` state holds a connected Room object. -/
structure AgentState where
  isConnected : Bool
  connectionState : ConnState
  micEnabled : Bool
  agentConnected : Bool
  room : Bool
deriving DecidableEq, Repr

/-- Embeds `connect(token, url)` from useLiveKit: when the room connect and
track publish resolve, the Connected event sets the connected flag and
state, `setRoom` stores the room, and the initial checkAgents run records
whether a remote agent participant is present; the mic-enabled flag is
not touched.  When they reject, the error is caught, the connected flag
is cleared, and no room is stored. -/
def lkConnect (env : AppEnv) (st : AgentState) : AgentState :=
  if env.agentConnectOk then
    { isConnected := true, connectionState := .connected
    , micEnabled := st.micEnabled, agentConnected := env.agentPresent
    , room := true }
  else
    { st with isConnected := false }

/-- Embeds `disconnect()` from useLiveKit: cancel any pending reconnect timer,
disconnect and drop the room, clear the connected flag. -/
def lkDisconnect (st : AgentState) : AgentState :=
  { st with room := false, isConnected := false,
            connectionState := .disconnected }

/-- Embeds `toggleMicrophone` from useLiveKit: a no-op without a room, otherwise
flips the mic-enabled flag (after setMicrophoneEnabled on the
participant). -/
def lkToggleMicrophone (st : AgentState) : AgentState :=
  if st.room then { st with micEnabled := !st.micEnabled } else st

/-- Reliable control messages published by the client. -/
inductive OutMsg where
  | setLanguage (code : String)
deriving DecidableEq, Repr

/-- Embeds `setLanguage` from useLiveKit: a no-op without a room, otherwise
publishes the set_language control message on the reliable channel. -/
def lkSetLanguage (st : AgentState) (code : String) : Option OutMsg :=
  if st.room then some (.setLanguage code) else none

/-- Embeds `setLanguage` from useDirectStream: sends the set_language message
only while the socket is open. -/
def directSetLanguage (st : DirectState) (code : String) : Option OutMsg :=
  if st.ws = some WsReadyState.open then some (.setLanguage code) else none

/-- The language-sync effect of SessionPage (App.jsx): in agent mode,
when the hook reports connected, call the agent hook's setLanguage; in
direct mode, when connected, call the direct hook's setLanguage;
otherwise emit nothing.  The result is the control message put on the
wire by this effect, if any. -/
def languageSyncEffect (m : Mode) (ag : AgentState) (di : DirectState)
    (code : String) : Option OutMsg :=
  match m with
  | .agent => if ag.isConnected then lkSetLanguage ag code else none
  | .direct => if di.isConnected then directSetLanguage di code else none

/-- Combined SessionPage state: the preflight flag `isSystemChecked` and
the two transport hooks' states. -/
structure UiState where
  checked : Bool
  ag : AgentState
  di : DirectState
deriving Repr

/-- Embeds `handleToggleConnect` from App.jsx: abort (triggering the preflight
modal) when the preflight flag is not set; in agent mode, disconnect when
connected, otherwise fetch a token and, when one is returned, run the
agent connect and report success (useLiveKit's connect swallows its own
failures, so the token being present is what makes the handler report
success); in direct mode, disconnect when connected, otherwise await the
direct connect promise, reporting success unless it rejects. -/
def handleToggleConnect (env : AppEnv) (m : Mode) (st : UiState) :
    UiState × Bool :=
  if !st.checked then (st, false)
  else
    match m with
    | .agent =>
      if st.ag.isConnected then ({ st with ag := lkDisconnect st.ag }, false)
      else if env.tokenOk then ({ st with ag := lkConnect env st.ag }, true)
      else (st, false)
    | .direct =>
      if st.di.isConnected then
        ({ st with di := directDisconnect st.di }, false)
      else
        let (di', r) := directConnect env st.di
        ({ st with di := di' }, decide (r ≠ .failed))

/-- Models the deferred `agent.toggleMicrophone()` call of the smart-start
path: the setTimeout callback invokes the toggleMicrophone closure created
in the click-time render, which reads the click-time `room` and
`micEnabled` state values.  With no room at click time (the case in every
reachable disconnected state, since disconnect nulls the room) the guard
returns without changing anything, even though a fresh room exists by the
time the timer fires; when the click-time render did hold a room, the new
flag is the negation of the click-time flag. -/
def lkToggleMicrophoneClosure (renderAg cur : AgentState) : AgentState :=
  if renderAg.room then { cur with micEnabled := !renderAg.micEnabled }
  else cur

/-- Models the `direct.toggleRecording()` call of the smart-start path:
the click-time closure branches on the click-time `isRecording` value,
but startRecording and stopRecording act through refs (wsRef, streamRef)
and the state setter, hence on the current state. -/
def toggleRecordingClosure (renderDi : DirectState) (env : AppEnv)
    (cur : DirectState) : DirectState :=
  if renderDi.isRecording then stopRecording cur else startRecording env cur

/-- Embeds `handleToggleMic` from App.jsx (the smart-start entry point): abort
(triggering the preflight modal) when the preflight flag is not set; when
already connected, pass the toggle straight through to the active hook;
when disconnected, run handleToggleConnect first and, if it reported
success and the click-time capture flag was off, invoke the click-time
toggle closure (for the agent this is deferred through setTimeout and
still reads the click-time room state; for the direct hook the closure
reads the current socket through a ref). -/
def handleToggleMic (env : AppEnv) (m : Mode) (st : UiState) : UiState :=
  if !st.checked then st
  else
    match m with
    | .agent =>
      if st.ag.isConnected then { st with ag := lkToggleMicrophone st.ag }
      else
        let (st', connected) := handleToggleConnect env .agent st
        if connected && !st.ag.micEnabled then
          { st' with ag := lkToggleMicrophoneClosure st.ag st'.ag }
        else st'
    | .direct =>
      if st.di.isConnected then
        { st with di := toggleRecording env st.di }
      else
        let (st', connected) := handleToggleConnect env .direct st
        if connected && !st.di.isRecording then
          { st' with di := toggleRecordingClosure st.di env st'.di }
        else st'

/-- The LiveKit DataReceived handler (useLiveKit): decode and parse the
payload; on parse failure log and drop; on a transcription message append
an entry of the agent transcript list (text and arrival time); any other
message is ignored. -/
def lkDataReceived (ts : List (Option Json × Nat)) (payload : Option Json)
    (now : Nat) : List (Option Json × Nat) :=
  match payload with
  | none => ts
  | some data =>
    match data.getField "type" with
    | some (.str t) =>
      if t = "transcription" then ts ++ [(data.getField "text", now)]
      else ts
    | _ => ts

/-- Embeds `maxReconnectAttempts` from useLiveKit. -/
def maxReconnectAttempts : Nat := 5

/-- The delay scheduled for the given attempt number (useLiveKit
handleReconnect): 1000 * 2 ^ attempt milliseconds, capped at 30000. -/
def backoffDelay (attempt : Nat) : Nat := min (1000 * 2 ^ attempt) 30000

/-- The reconnect bookkeeping of useLiveKit: the attempt counter ref and
the hook's connection state. -/
structure ReconnectState where
  attempts : Nat
  connectionState : ConnState
deriving DecidableEq, Repr

/-- Embeds `handleReconnect` from useLiveKit: when the attempt counter has
reached the ceiling, log and return, scheduling nothing and changing
nothing; otherwise increment the counter and schedule a retry after the
capped exponential delay.  The second component is the scheduled delay,
if any. -/
def handleReconnect (st : ReconnectState) : ReconnectState × Option Nat :=
  if maxReconnectAttempts ≤ st.attempts then (st, none)
  else ({ st with attempts := st.attempts + 1 },
        some (backoffDelay (st.attempts + 1)))

/-- Per-check status used by SystemCheckModal (idle / running / success /
error). -/
inductive CheckStatus where
  | idle | running | success | error
deriving DecidableEq, Repr

/-- The four checks held in SystemCheckModal's `checks` state: backend
server, LiveKit cloud, microphone access, internet stability. -/
structure Checks where
  backend : CheckStatus
  livekit : CheckStatus
  mic : CheckStatus
  internet : CheckStatus
deriving DecidableEq, Repr

/-- The outcomes of the external probes runChecks performs: the /health
fetch succeeding with body status "ok", navigator.onLine, the /token
fetch returning a token, and getUserMedia granting the microphone. -/
structure CheckEnv where
  backendHealthOk : Bool
  online : Bool
  tokenOk : Bool
  micOk : Bool
deriving DecidableEq, Repr

/-- The session modes as the specification names them.  `Mode.agent`
realises CloudRelay and `Mode.direct` realises DirectSocket. -/
inductive SessionMode where
  | cloudRelay | directSocket
deriving DecidableEq, Repr

/-- Embeds `runChecks` from SystemCheckModal: the final statuses after the run.
Backend: success iff the health fetch is ok with status "ok".  Internet:
success iff the host reports online.  LiveKit: when the backend check
failed it is forced to error without a request; otherwise it probes the
token endpoint and is success iff a token comes back.  Mic: success iff
a capture handle is granted (it is released immediately). -/
def runChecks (env : CheckEnv) : Checks :=
  { backend := if env.backendHealthOk then .success else .error
  , internet := if env.online then .success else .error
  , livekit :=
      if env.backendHealthOk then
        if env.tokenOk then .success else .error
      else .error
  , mic := if env.micOk then .success else .error }

/-- SystemCheckModal as instantiated from App.jsx: the component receives
the selected mode as a prop but its body never reads it, so the checks it
runs and their statuses are those of `runChecks` in every mode. -/
def runChecksForMode (_m : SessionMode) (env : CheckEnv) : Checks :=
  runChecks env

/-- Embeds `Object.values(checks)` in the modal's aggregate expressions, in
insertion order: backend, livekit, mic, internet. -/
def checksList (c : Checks) : List CheckStatus :=
  [c.backend, c.livekit, c.mic, c.internet]

/-- Embeds `allPassed` from SystemCheckModal: every check's status is success.
This is the condition under which the footer button proceeds to
onComplete, i.e. the aggregate preflight readiness that permits session
start. -/
def allPassed (c : Checks) : Bool :=
  (checksList c).all (fun s => s == CheckStatus.success)

/-- Embeds `allFinished` from SystemCheckModal: every check has settled to
success or error (gates the footer button's enabled state). -/
def allFinished (c : Checks) : Bool :=
  (checksList c).all
    (fun s => s == CheckStatus.success || s == CheckStatus.error)

/-- The backend express handler for GET /health: responds 200 with the
JSON body built from the literal in server/src/index (`res.json({
status: 'ok', timestamp: new Date().toISOString() })`). -/
def healthHandler (now : String) : Json :=
  .obj [("status", .str "ok"), ("timestamp", .str now)]

/-- Clamp to [-1, 1], as `Math.max(-1, Math.min(1, x))` in
onaudioprocess. -/
def clampSample (x : ℚ) : ℚ := max (-1) (min 1 x)

/-- Truncation toward zero, the conversion JavaScript applies when a
Number is stored into an Int16Array slot (the stored values here are
already within the signed 16-bit range, so no wrapping occurs). -/
def truncQ (q : ℚ) : Int := if 0 ≤ q then ⌊q⌋ else ⌈q⌉

/-- One sample of the Float32-to-Int16 conversion in onaudioprocess:
`pcmData[i] = Math.max(-1, Math.min(1, inputData[i])) * 0x7FFF`. -/
def floatToInt16 (x : ℚ) : Int := truncQ (clampSample x * 32767)

/-- Reinterpret a signed 16-bit value as its unsigned 16-bit bit
pattern, as reading the Int16Array buffer through a Uint8Array does. -/
def toUInt16 (n : Int) : Nat := (n % 65536).toNat

/-- The two little-endian bytes of a signed 16-bit sample. -/
def int16Bytes (n : Int) : List Nat :=
  [toUInt16 n % 256, toUInt16 n / 256]

/-- The byte buffer built from one audio frame: each sample converted to
Int16 and laid out little-endian (the Int16Array's backing buffer viewed
as a Uint8Array). -/
def pcmBytes (samples : List ℚ) : List Nat :=
  (samples.map floatToInt16).flatMap int16Bytes

/-- The standard base64 alphabet used by btoa. -/
def base64Alphabet : List Char :=
  "ABCDEFGHIJKLMNOPQRSTUVWXYZabcdefghijklmnopqrstuvwxyz0123456789+/".toList

/-- The base64 digit for a 6-bit group. -/
def b64char (n : Nat) : Char := base64Alphabet.getD n 'A'

/-- btoa: base64-encode a byte sequence, with '=' padding. -/
def base64Encode : List Nat → List Char
  | a :: b :: c :: rest =>
    let w := a * 65536 + b * 256 + c
    b64char (w / 262144) :: b64char (w / 4096 % 64) ::
      b64char (w / 64 % 64) :: b64char (w % 64) :: base64Encode rest
  | [a, b] =>
    let w := a * 65536 + b * 256
    [b64char (w / 262144), b64char (w / 4096 % 64), b64char (w / 64 % 64),
     '=']
  | [a] =>
    let w := a * 65536
    [b64char (w / 262144), b64char (w / 4096 % 64), '=', '=']
  | [] => []

/-- The capture graph parameters startRecording configures: an
AudioContext at 16000 Hz and a ScriptProcessor with buffer size 4096 and
one input and one output channel. -/
structure CaptureConfig where
  sampleRate : Nat
  bufferSize : Nat
  channels : Nat
deriving DecidableEq, Repr

/-- The DirectSocket capture configuration from startRecording. -/
def directCaptureConfig : CaptureConfig :=
  { sampleRate := 16000, bufferSize := 4096, channels := 1 }

/-- Embeds `onaudioprocess` from startRecording: when the socket is open,
convert the frame's Float32 samples to Int16 by clamp-and-scale, view
the buffer as bytes, base64-encode them with btoa, and send the JSON
audio message; when the socket is not open the frame is dropped. -/
def onAudioProcess (wsOpen : Bool) (input : List ℚ) : Option Json :=
  if wsOpen then
    some (.obj [("type", .str "audio"),
                ("data", .str (String.mk (base64Encode (pcmBytes input))))])
  else none

/-- Concrete environment in which every external collaborator succeeds. -/
def envAllOk : AppEnv :=
  { tokenOk := true, agentConnectOk := true, agentPresent := true
  , directConnectOk := true, micOk := true }

/-- Concrete idle direct-stream state: no socket held, nothing recorded. -/
def idleDirectState : DirectState :=
  { isConnected := false, isRecording := false, transcripts := []
  , ws := none }

/-- Concrete connected direct-stream state whose socket is open. -/
def openDirectState : DirectState :=
  { isConnected := true, isRecording := false, transcripts := []
  , ws := some .open }

/-- Concrete agent-hook state that is connected with a room but where no
remote transcription agent has been detected. -/
def agentAbsentState : AgentState :=
  { isConnected := true, connectionState := .connected, micEnabled := true
  , agentConnected := false, room := true }

/-- Concrete SessionPage state before any session: preflight done, both
hooks idle. -/
def idleUi : UiState :=
  { checked := true
  , ag := { isConnected := false, connectionState := .idle
          , micEnabled := true, agentConnected := false, room := false }
  , di := idleDirectState }

/-- Concrete disconnected SessionPage state with the mic flag off,
reachable by connect, toggle the microphone off, then Leave (disconnect
clears isConnected and nulls the room but leaves micEnabled false). -/
def micOffUi : UiState :=
  { checked := true
  , ag := { isConnected := false, connectionState := .disconnected
          , micEnabled := false, agentConnected := false, room := false }
  , di := idleDirectState }

/-- The inbound message of the transcript-append scenario exactly as the
claim writes it, i.e. without a type field. -/
def untypedHelloMsg : Json :=
  .obj [("text", .str "hello"), ("isFinal", .bool true),
        ("latency_ms", .num 120)]

/-- The transcript wire message carrying hello with the type tag the
DirectSocket protocol requires. -/
def typedHelloMsg : Json :=
  .obj [("type", .str "transcription"), ("text", .str "hello"),
        ("isFinal", .bool true), ("latency_ms", .num 120)]

/-- C3 (counterexample): the health handler's response body has no
worker field at all, so a successful GET /health response does not
contain a worker value among online, loading, offline. -/
theorem health_response_missing_worker :
    (healthHandler "2026-01-01T00:00:00.000Z").getField "worker" = none :=
  rfl

/-- C3 (amended): every successful GET /health response body is a
structured object with status equal to ok and a timestamp, and it
contains no worker field. -/
theorem health_response_shape (now : String) :
    (healthHandler now).getField "status" = some (.str "ok")
    ∧ (healthHandler now).getField "timestamp" = some (.str now)
    ∧ (healthHandler now).getField "worker" = none :=
  ⟨rfl, rfl, rfl⟩

/-- C4 (counterexample): with the preflight run in DirectSocket mode, the
relay (LiveKit) check is not trivially marked ready: when the backend is
healthy but the token probe fails, its final status is error, so the
external relay configuration was evaluated despite the mode. -/
theorem relay_check_probed_in_direct_mode :
    (runChecksForMode .directSocket
      { backendHealthOk := true, online := true, tokenOk := false
      , micOk := true }).livekit = CheckStatus.error := rfl

/-- C4 (amended): the relay-configuration (LiveKit) preflight check is
evaluated identically in both session modes — the modal never consults
the mode it receives — and its status reflects the backend and token
probes rather than being forced ready in DirectSocket mode. -/
theorem relay_check_mode_independent (m : SessionMode) (env : CheckEnv) :
    runChecksForMode m env = runChecks env
    ∧ (runChecksForMode m env).livekit =
        (if env.backendHealthOk then
           if env.tokenOk then CheckStatus.success else CheckStatus.error
         else CheckStatus.error) :=
  ⟨rfl, rfl⟩

/-- C5: aggregate preflight readiness (allPassed, the condition under
which the footer button proceeds to onComplete) is true iff every one of
the four checks has final status success, and a mic check in error makes
it false regardless of the other statuses. -/
theorem preflight_aggregate_iff (c : Checks) :
    (allPassed c = true ↔
      (c.backend = CheckStatus.success ∧ c.livekit = CheckStatus.success
       ∧ c.mic = CheckStatus.success ∧ c.internet = CheckStatus.success))
    ∧ (c.mic = CheckStatus.error → allPassed c = false) := by
  obtain ⟨b, l, mi, i⟩ := c
  cases b <;> cases l <;> cases mi <;> cases i <;> decide

/-- Witness for preflight_aggregate_iff: a concrete assignment with every
other check ready but the mic check in error yields a false aggregate. -/
theorem preflight_aggregate_iff_witness :
    allPassed { backend := .success, livekit := .success, mic := .error
              , internet := .success } = false :=
  (preflight_aggregate_iff
    { backend := .success, livekit := .success, mic := .error
    , internet := .success }).2 rfl

/-- C7 (counterexample): fed the inbound message exactly as the claim
writes it — without a type field — the onmessage handler drops it, so
the transcript log does not gain a trailing entry. -/
theorem transcript_untyped_message_dropped :
    wsOnMessage openDirectState (some untypedHelloMsg) 5 = openDirectState
    ∧ (wsOnMessage openDirectState (some untypedHelloMsg) 5).transcripts.length
        ≠ openDirectState.transcripts.length + 1 :=
  ⟨rfl, by decide⟩

/-- C7 (amended): given the inbound DirectSocket message with the
transcription type tag, text hello, isFinal true and latency_ms 120, the
transcript log gains exactly one new trailing entry with text hello and
latency 120, all previously appended entries unchanged and in order, and
the rest of the hook state untouched. -/
theorem transcript_hello_appends_one (st : DirectState) (now : Nat) :
    (wsOnMessage st (some typedHelloMsg) now).transcripts =
      st.transcripts ++
        [{ text := some (.str "hello"), timestamp := now
         , isFinal := some (.bool true), latency := some (.num 120)
         , participant := "direct-agent" }]
    ∧ (wsOnMessage st (some typedHelloMsg) now).isConnected = st.isConnected
    ∧ (wsOnMessage st (some typedHelloMsg) now).isRecording = st.isRecording
    ∧ (wsOnMessage st (some typedHelloMsg) now).ws = st.ws :=
  ⟨rfl, rfl, rfl, rfl⟩

/-- C9: an inbound message whose payload fails to parse is dropped by
both transports' handlers: the whole direct-stream hook state (transcript
log, connection flag, recording flag, socket) and the agent transcript
list are returned unchanged, so a malformed message never terminates the
session. -/
theorem malformed_message_dropped (st : DirectState)
    (ts : List (Option Json × Nat)) (now now' : Nat) :
    wsOnMessage st none now = st ∧ lkDataReceived ts none now' = ts :=
  ⟨rfl, rfl⟩

/-- C10: calling the direct-stream connect while the held socket is
already open resolves immediately without constructing a second socket:
the returned state is the input state itself (connection flag, socket and
transcript log all unchanged). -/
theorem direct_connect_idempotent (env : AppEnv) (st : DirectState)
    (h : st.ws = some WsReadyState.open) :
    directConnect env st = (st, .alreadyOpen) := by
  simp only [directConnect]
  rw [h]

/-- Witness for direct_connect_idempotent at a concrete open state. -/
theorem direct_connect_idempotent_witness :
    directConnect envAllOk openDirectState =
      (openDirectState, .alreadyOpen) :=
  direct_connect_idempotent envAllOk openDirectState rfl

/-- C2 (counterexample): once the attempt counter has reached the
ceiling, the reconnect handler schedules nothing but also leaves the
connection state exactly as it was — it does not transition the session
to the Failed state (the hook never assigns that state at all). -/
theorem reconnect_ceiling_not_failed :
    handleReconnect { attempts := 5, connectionState := .disconnected }
      = ({ attempts := 5, connectionState := .disconnected }, none)
    ∧ (handleReconnect
        { attempts := 5, connectionState := .disconnected }
       ).1.connectionState ≠ ConnState.failed := by decide

/-- C2 (amended): starting from a fresh failure sequence the first
scheduled retry delay is d = 2000 ms and the second is 4000 ms = 2·d;
each successive delay is the double of the previous one capped at
30000 ms; and once the attempt ceiling of 5 is reached no further retry
is scheduled and the handler leaves its state (including the connection
state) unchanged, rather than transitioning to Failed. -/
theorem reconnect_backoff_behaviour (st : ReconnectState)
    (h : st.attempts = 0) :
    (handleReconnect st).2 = some 2000
    ∧ ((handleReconnect st).1).attempts = 1
    ∧ (handleReconnect (handleReconnect st).1).2 = some 4000
    ∧ (∀ n, backoffDelay (n + 1) = min (2 * backoffDelay n) 30000)
    ∧ (∀ st', maxReconnectAttempts ≤ st'.attempts →
         handleReconnect st' = (st', none)) := by
  refine ⟨?_, ?_, ?_, ?_, ?_⟩
  · simp [handleReconnect, backoffDelay, maxReconnectAttempts, h]
  · simp [handleReconnect, maxReconnectAttempts, h]
  · simp [handleReconnect, backoffDelay, maxReconnectAttempts, h]
  · intro n
    have h2 : (2:ℕ) ^ (n + 1) = 2 ^ n * 2 := pow_succ 2 n
    simp only [backoffDelay, h2]
    omega
  · intro st' h'
    simp [handleReconnect, h']

/-- Witness for reconnect_backoff_behaviour at the zero-attempt state. -/
theorem reconnect_backoff_behaviour_witness :
    (handleReconnect { attempts := 0, connectionState := .disconnected }).2
      = some 2000 :=
  (reconnect_backoff_behaviour
    { attempts := 0, connectionState := .disconnected } rfl).1

/-- C6 (counterexample): in CloudRelay mode the language-sync effect
publishes the set_language control message in a state where the
connection is Connected and a room is held but no remote transcription
agent has been detected, so a language control message is emitted before
agent presence holds. -/
theorem set_language_sent_without_agent :
    agentAbsentState.agentConnected = false
    ∧ agentAbsentState.isConnected = true
    ∧ languageSyncEffect .agent agentAbsentState idleDirectState "es"
        = some (.setLanguage "es") :=
  ⟨rfl, rfl, rfl⟩

/-- C6 (amended): in CloudRelay mode the set_language control message is
emitted exactly when the hook reports connected and holds a room; the
detected presence of a remote transcription agent is not consulted. -/
theorem set_language_emission_condition (ag : AgentState)
    (di : DirectState) (code : String) :
    languageSyncEffect .agent ag di code = some (OutMsg.setLanguage code)
      ↔ (ag.isConnected = true ∧ ag.room = true) := by
  cases hc : ag.isConnected <;> cases hr : ag.room <;>
    simp [languageSyncEffect, lkSetLanguage, hc, hr]

/-- C1 (failing-input evaluation): from the reachable disconnected state
with the mic flag off (connect, toggle the microphone off, Leave), a
fully successful smart start in CloudRelay mode ends Connected while the
capture flag is still false: the deferred toggleMicrophone call runs the
click-time closure, whose room state is null, so it returns without
enabling capture.  This contradicts the claim and the controller's own
stated intent (the App.jsx comment expects the mic live after the toggle,
and the repository's fix-plan document requires the smart start to chain
connection and mic activation), so it is a defect of the code rather
than of the specification. -/
theorem smart_start_stale_toggle_bug :
    (handleToggleMic envAllOk Mode.agent micOffUi).ag.isConnected = true
    ∧ (handleToggleMic envAllOk Mode.agent micOffUi).ag.connectionState
        = ConnState.connected
    ∧ (handleToggleMic envAllOk Mode.agent micOffUi).ag.micEnabled
        = false :=
  ⟨rfl, rfl, rfl⟩

theorem pcmBytes_length (l : List ℚ) : (pcmBytes l).length = 2 * l.length := by
  induction l with
  | nil => rfl
  | cons x xs ih =>
    simp only [pcmBytes, List.map_cons, List.flatMap_cons,
      List.length_append, List.length_cons] at ih ⊢
    simp only [int16Bytes, List.length_cons, List.length_nil]
    omega

theorem floatToInt16_range (x : ℚ) :
    -32767 ≤ floatToInt16 x ∧ floatToInt16 x ≤ 32767 := by
  have h1 : (-1 : ℚ) ≤ max (-1) (min 1 x) := le_max_left _ _
  have h2 : max (-1) (min 1 x) ≤ 1 := max_le (by norm_num) (min_le_left _ _)
  have hlo : (-32767 : ℚ) ≤ max (-1) (min 1 x) * 32767 := by nlinarith
  have hhi : max (-1) (min 1 x) * 32767 ≤ 32767 := by nlinarith
  unfold floatToInt16 truncQ clampSample
  split
  · constructor
    · have : ⌊(-32767 : ℚ)⌋ ≤ ⌊max (-1) (min 1 x) * 32767⌋ :=
        Int.floor_le_floor hlo
      simpa using this
    · have : ⌊max (-1) (min 1 x) * 32767⌋ ≤ ⌊(32767 : ℚ)⌋ :=
        Int.floor_le_floor hhi
      simpa using this
  · constructor
    · have : ⌈(-32767 : ℚ)⌉ ≤ ⌈max (-1) (min 1 x) * 32767⌉ :=
        Int.ceil_le_ceil hlo
      simpa using this
    · have : ⌈max (-1) (min 1 x) * 32767⌉ ≤ ⌈(32767 : ℚ)⌉ :=
        Int.ceil_le_ceil hhi
      simpa using this

/-- C8: an audio frame handed to the DirectSocket transport comes from a
capture graph configured mono at 16 kHz with fixed frame size 4096; each
sample is converted to a signed 16-bit integer by clamping to [-1, 1]
and scaling by 32767 (so every converted sample lies in
[-32767, 32767]); the frame's 2·4096 little-endian bytes are sent
base64-encoded inside the JSON audio message. -/
theorem direct_audio_frame_encoding (input : List ℚ)
    (h : input.length = directCaptureConfig.bufferSize) :
    directCaptureConfig.sampleRate = 16000
    ∧ directCaptureConfig.bufferSize = 4096
    ∧ directCaptureConfig.channels = 1
    ∧ onAudioProcess true input =
        some (.obj [("type", .str "audio"),
          ("data", .str (String.mk (base64Encode
            ((input.map (fun x =>
               truncQ (max (-1) (min 1 x) * 32767))).flatMap
              int16Bytes))))])
    ∧ (pcmBytes input).length = 2 * 4096
    ∧ (∀ x ∈ input, -32767 ≤ floatToInt16 x ∧ floatToInt16 x ≤ 32767) := by
  refine ⟨rfl, rfl, rfl, rfl, ?_, fun x _ => floatToInt16_range x⟩
  rw [pcmBytes_length, h]; rfl

/-- Witness for direct_audio_frame_encoding on a concrete 4096-sample
silent frame. -/
theorem direct_audio_frame_encoding_witness :
    (List.replicate 4096 (0 : ℚ)).length = directCaptureConfig.bufferSize
    ∧ (pcmBytes (List.replicate 4096 (0 : ℚ))).length = 2 * 4096 :=
  ⟨by rw [List.length_replicate]; rfl,
   (direct_audio_frame_encoding (List.replicate 4096 (0 : ℚ))
     (by rw [List.length_replicate]; rfl)).2.2.2.2.1⟩

end VoxNexus
